import Mathlib

/-!
Shallow embedding of the notification-service core (luisz08/notif_svc).

Conventions of the embedding:
* ids (`uuid.UUID`) are modelled as `Nat`;
* timestamps (`datetime`) are modelled as `Int` seconds, `now` is passed
  explicitly where the source calls `datetime.utcnow()`;
* the SQLAlchemy session is modelled as an explicit `Store` value threaded
  through each operation; `Store.history` is a ghost log recording, in order,
  every notification status written to storage (inserts and updates), used to
  state the status-transition invariants;
* Python exceptions are modelled with `Except`; an escaping exception carries
  the store state at the raise point;
* external collaborators (template renderer, content hash, the concrete
  channels' file/console transports) are parameters (`TemplateEnv`,
  `ChannelEnv`), as the spec treats them as black boxes.
-/

namespace NotifSvc

/-- `NotificationStatus` enumeration (src/models.py). -/
inductive NotificationStatus where
  | pending
  | sent
  | failed
  | duplicate
deriving DecidableEq, Repr

/-- A status is terminal iff it is not `pending`. -/
def NotificationStatus.isTerminal : NotificationStatus → Bool
  | .pending => false
  | _ => true

/-- `Notification` table row (src/repositories/database.py).  `subject` is an
`Option` because drafts built by the event handlers do not set it (the column
default is applied by the repository on insert). -/
structure Notification where
  id : Nat
  event_id : Nat
  template_id : String
  channel : String
  recipient : Option String
  subject : Option String
  content : String
  content_hash : String
  status : NotificationStatus
  created_at : Int
  sent_at : Option Int
deriving DecidableEq, Repr

/-- `Event` table row (src/repositories/database.py); `data` is the JSON map,
modelled as an association list with string values. -/
structure Event where
  id : Nat
  type : String
  data : List (String × String)
  created_at : Int
  processed : Bool
deriving DecidableEq, Repr

/-- Python `data[k]` / `k in data` on the event's JSON dict. -/
def lookupData (d : List (String × String)) (k : String) : Option String :=
  (d.find? (fun kv => kv.1 == k)).map (fun kv => kv.2)

/-- The persistent store: the tables the core touches, plus the ghost
`history` of every notification-status write (`(id, status)`), in order. -/
structure Store where
  events : List Event
  notifications : List Notification
  dedup_log : List String
  history : List (Nat × NotificationStatus)
deriving Repr

/-- `NotificationRepository.get`: first row with the given id. -/
def Store.get (s : Store) (id : Nat) : Option Notification :=
  s.notifications.find? (fun n => n.id == id)

/-- Status of the stored row with the given id, if any. -/
def Store.statusOf (s : Store) (id : Nat) : Option NotificationStatus :=
  (s.get id).map (fun n => n.status)

/-- `sent_at` of the stored row with the given id, if any. -/
def Store.sentAtOf (s : Store) (id : Nat) : Option (Option Int) :=
  (s.get id).map (fun n => n.sent_at)

/-- Python `notification.subject or "No Subject"` on the draft's subject:
`None` and the empty string are falsy. -/
def defaultSubject : Option String → String
  | none => "No Subject"
  | some s => if s = "" then "No Subject" else s

/-- `NotificationRepository.create_from_instance` (notification_repository.py
lines 25-31): defaults the subject, inserts the row, returns the refreshed
instance.  The ghost history records the inserted status. -/
def Store.create_from_instance (s : Store) (n : Notification) :
    Notification × Store :=
  let n' := { n with subject := some (defaultSubject n.subject) }
  (n', { s with
          notifications := s.notifications ++ [n'],
          history := s.history ++ [(n.id, n.status)] })

/-- Update the first list entry with the given id. -/
def updateFirst (f : Notification → Notification) (id : Nat) :
    List Notification → List Notification
  | [] => []
  | n :: ns =>
      if n.id == id then f n :: ns else n :: updateFirst f id ns

/-- `NotificationRepository.update_status` (notification_repository.py lines
97-113): look up the row; if present set `status`; set `sent_at` when a value
was passed (a `datetime` argument is always truthy), else when the new status
is `sent` use `utcnow()`; otherwise leave `sent_at` unchanged.  The ghost
history records the written status. -/
def Store.update_status (s : Store) (id : Nat) (status : NotificationStatus)
    (sent_at : Option Int) (now : Int) : Store :=
  match s.get id with
  | none => s
  | some _ =>
      { s with
        notifications :=
          updateFirst
            (fun n =>
              { n with
                status := status,
                sent_at :=
                  match sent_at with
                  | some t => some t
                  | none =>
                      if status = NotificationStatus.sent then some now
                      else n.sent_at })
            id s.notifications,
        history := s.history ++ [(id, status)] }

/-- `NotificationRepository.any` (notification_repository.py lines 71-85):
does some row have this content hash, `created_at` no older than
`now - seconds`, and a different id? -/
def Store.any (s : Store) (id : Nat) (hash : String) (seconds : Int)
    (now : Int) : Bool :=
  s.notifications.any (fun n =>
    n.content_hash == hash
      && decide (now - seconds ≤ n.created_at)
      && n.id != id)

/-- `DeduplicationRepository.log_deduplication`: append an audit row. -/
def Store.log_deduplication (s : Store) (hash : String) : Store :=
  { s with dedup_log := s.dedup_log ++ [hash] }

/-- `TimeWindowPolicy` (deduplications/time_window_policy.py). -/
structure TimeWindowPolicy where
  window_seconds : Int
deriving DecidableEq, Repr

/-- `TimeWindowPolicy.should_send`: send iff no different-id row with the same
content hash was created within the trailing window. -/
def TimeWindowPolicy.should_send (p : TimeWindowPolicy) (s : Store)
    (n : Notification) (now : Int) : Bool :=
  !(s.any n.id n.content_hash p.window_seconds now)

/-- `TimeWindowPolicy.record_duplication`: log the suppressed hash. -/
def TimeWindowPolicy.record_duplication (_ : TimeWindowPolicy) (s : Store)
    (n : Notification) : Store :=
  s.log_deduplication n.content_hash

namespace DeduplicationManager

/-- `DeduplicationManager._policies`: the single shipped policy, window 60s. -/
def policies : List TimeWindowPolicy := [⟨60⟩]

/-- The loop body of `DeduplicationManager.handle`: first policy that refuses
wins, records the suppression, and evaluation stops. -/
def handle_loop : List TimeWindowPolicy → Store → Notification → Int →
    Bool × Store
  | [], s, _, _ => (true, s)
  | p :: ps, s, n, now =>
      if p.should_send s n now then handle_loop ps s n now
      else (false, p.record_duplication s n)

/-- `DeduplicationManager.handle` (deduplications/deduplication_manager.py
lines 18-26). -/
def handle (s : Store) (n : Notification) (now : Int) : Bool × Store :=
  handle_loop policies s n now

end DeduplicationManager

/-- Outcome of a concrete channel's `send` call: it returns a boolean, or an
exception escapes it. -/
inductive SendOutcome where
  | returns (b : Bool)
  | raises (msg : String)
deriving DecidableEq, Repr

/-- The concrete channels as external collaborators: `validate` is each
registered channel's `validate_config` (both shipped channels return `True`),
`send` is the channel's transport behaviour. -/
structure ChannelEnv where
  validate : String → Bool
  send : String → Notification → SendOutcome

namespace ChannelManager

/-- The keys of `ChannelManager._get_channels`: email and slack. -/
def channels : List String := ["email", "slack"]

/-- `ChannelManager.send` (channels/channel_manager.py lines 26-33): raise on
an unknown channel, raise on invalid config, else call the channel's `send`
and return its boolean. -/
def send (env : ChannelEnv) (n : Notification) : Except String Bool :=
  if !(channels.contains n.channel) then
    Except.error ("Channel " ++ n.channel ++ " not found")
  else if !(env.validate n.channel) then
    Except.error ("Channel " ++ n.channel ++ " configuration is invalid")
  else
    match env.send n.channel n with
    | .returns b => Except.ok b
    | .raises msg => Except.error msg

end ChannelManager

namespace NotificationService

/-- The `try:` block of `NotificationService.send_notification`
(services/notification_service.py lines 60-82): persist the draft, ask the
deduplication manager, on suppression update to `duplicate` passing
`utcnow()` as `sent_at` and return `False`; otherwise call
`ChannelManager.send` (its return value is not inspected) and update to
`sent` with `sent_at = utcnow()`, returning `True`.  A raise from the channel
call escapes the block carrying the store at that point. -/
def send_notification_body (env : ChannelEnv) (s : Store) (n : Notification)
    (now : Int) : Except (String × Store) (Bool × Store) :=
  let res := s.create_from_instance n
  let dedup := DeduplicationManager.handle res.2 res.1 now
  if !dedup.1 then
    Except.ok (false,
      dedup.2.update_status n.id NotificationStatus.duplicate (some now) now)
  else
    match ChannelManager.send env res.1 with
    | .error msg => Except.error (msg, dedup.2)
    | .ok _ =>
        Except.ok (true,
          dedup.2.update_status n.id NotificationStatus.sent (some now) now)

/-- `NotificationService.send_notification` (services/notification_service.py
lines 51-87): run the body; `except Exception` updates the status to `failed`
(no `sent_at` argument) and returns `False`. -/
def send_notification (env : ChannelEnv) (s : Store) (n : Notification)
    (now : Int) : Bool × Store :=
  match send_notification_body env s n now with
  | .ok r => r
  | .error e =>
      (false, e.2.update_status n.id NotificationStatus.failed none now)

end NotificationService

/-- The distinct `ValueError` raise sites of classification and handler
construction (events/event_manager.py, events/signup_event.py,
events/schedule_event.py, events/daily_stat_event.py), distinguished by
their messages. -/
inductive ClassifyError where
  | missingSource
  | unknownSource (src : String)
  | missingField (msg : String)
deriving DecidableEq, Repr

/-- Whether the error is one of the handler-specific missing-required-key
failures (the spec's `MissingField`). -/
def ClassifyError.isMissingField : ClassifyError → Bool
  | .missingField _ => true
  | _ => false

/-- A constructed typed event handler: `SignupEvent` or `DailyStatEvent`
(the two entries of `EventManager.EVENT_TYPE_MAP`), carrying the owning
event's id and data (and, for the scheduled family, the validated cron). -/
inductive Handler where
  | signup (event_id : Nat) (data : List (String × String))
  | dailyStat (event_id : Nat) (cron : String) (data : List (String × String))
deriving DecidableEq, Repr

/-- `SignupEvent.__init__` (events/signup_event.py lines 11-26): requires
`user_name`, `email`, `service_name`, `recipient`, `slack_channel` in the
event data, else raises the missing-fields `ValueError`. -/
def SignupEvent.construct (e : Event) : Except ClassifyError Handler :=
  if (lookupData e.data "user_name").isNone
      || (lookupData e.data "email").isNone
      || (lookupData e.data "service_name").isNone
      || (lookupData e.data "recipient").isNone
      || (lookupData e.data "slack_channel").isNone then
    Except.error (.missingField "Missing required fields in event data")
  else
    Except.ok (.signup e.id e.data)

/-- `ScheduleEvent.__init__` (events/schedule_event.py lines 11-21): the
`cron` key must be present; its value becomes `self.cron`. -/
def ScheduleEvent.validateCron (e : Event) : Except ClassifyError String :=
  match lookupData e.data "cron" with
  | none =>
      Except.error (.missingField "Missing cron field in scheduled event data")
  | some c => Except.ok c

/-- `DailyStatEvent.__init__` (events/daily_stat_event.py lines 11-24): the
`ScheduleEvent` parent validates `cron`, then `query`, `recipient` and
`slack_channel` are required. -/
def DailyStatEvent.construct (e : Event) : Except ClassifyError Handler := do
  let cron ← ScheduleEvent.validateCron e
  if (lookupData e.data "query").isNone
      || (lookupData e.data "recipient").isNone
      || (lookupData e.data "slack_channel").isNone then
    Except.error (.missingField "Missing required fields in event data")
  else
    Except.ok (.dailyStat e.id cron e.data)

namespace EventManager

/-- `EventManager.EVENT_TYPE_MAP`: registered source names and their handler
constructors. -/
def EVENT_TYPE_MAP : List (String × (Event → Except ClassifyError Handler)) :=
  [("daily_stat", DailyStatEvent.construct),
   ("user_signup", SignupEvent.construct)]

/-- `EventManager.create_event_source` (events/event_manager.py lines 18-30):
the data must carry a `source` key naming a registered handler; the handler
constructor then runs its own validation.  Pure: takes no store. -/
def create_event_source (e : Event) : Except ClassifyError Handler :=
  match lookupData e.data "source" with
  | none => Except.error .missingSource
  | some src =>
      match EVENT_TYPE_MAP.find? (fun kv => kv.1 == src) with
      | none => Except.error (.unknownSource src)
      | some kv => kv.2 e

end EventManager

/-- The template collaborator: `render(templateId, variables)` and the
content-hash digest, both external black boxes per the spec. -/
structure TemplateEnv where
  render : String → List (String × String) → String
  hashFn : String → String

/-- The literal dict returned by `DailyStatEvent.query_data`
(events/daily_stat_event.py lines 35-50); non-string JSON values are carried
as their rendered-string forms, since they only feed the black-box renderer. -/
def query_data : List (String × String) :=
  [("date", "2023-10-01"), ("total_users", "100"), ("new_signups", "10"),
   ("active_users", "80"), ("notifications_sent", "50"),
   ("avg_response_time", "2s"), ("success_rate", "95%"),
   ("cpu_usage", "30%"), ("memory_usage", "40%"), ("disk_usage", "20%"),
   ("alerts", "[1, 2]"), ("report_time", "2023-10-01T12:00:00Z")]

/-- `create_notifications` of the two handlers (signup_event.py lines 35-73,
daily_stat_event.py lines 52-74): render per channel, hash the rendered text,
and build one `pending` draft per channel.  `id1`/`id2` stand for the
`uuid.uuid4()` draws, `now` for `datetime.utcnow()`; no draft sets a
subject. -/
def Handler.create_notifications (tenv : TemplateEnv) (h : Handler)
    (id1 id2 : Nat) (now : Int) : List Notification :=
  match h with
  | .signup eid data =>
      let email_content := tenv.render "user_welcome_email.j2" data
      let email_hash := tenv.hashFn email_content
      let slack_content := tenv.render "user_welcome_slack_message.j2" data
      let slack_hash := tenv.hashFn slack_content
      [{ id := id1, event_id := eid,
         template_id := "user_welcome_email.j2", channel := "email",
         recipient := lookupData data "recipient", subject := none,
         content := email_content, content_hash := email_hash,
         status := .pending, created_at := now, sent_at := none },
       { id := id2, event_id := eid,
         template_id := "user_welcome_slack_message.j2", channel := "slack",
         recipient := lookupData data "slack_channel", subject := none,
         content := slack_content, content_hash := slack_hash,
         status := .pending, created_at := now, sent_at := none }]
  | .dailyStat eid _ data =>
      let slack_content := tenv.render "daily_statistics_report.j2" query_data
      let slack_hash := tenv.hashFn slack_content
      [{ id := id1, event_id := eid,
         template_id := "daily_statistics_report.j2", channel := "slack",
         recipient := lookupData data "slack_channel", subject := none,
         content := slack_content, content_hash := slack_hash,
         status := .pending, created_at := now, sent_at := none }]

/-- `EventManager.process_realtime_event` (events/event_manager.py lines
32-38): persist the event, classify it, and return the handler's drafts; a
classification error escapes with the event already stored and no
notification produced. -/
def EventManager.process_realtime_event (tenv : TemplateEnv) (s : Store)
    (event_data : List (String × String)) (eid id1 id2 : Nat) (now : Int) :
    Except ClassifyError (List Notification) × Store :=
  let e : Event :=
    { id := eid, type := "realtime", data := event_data,
      created_at := now, processed := false }
  let s1 := { s with events := s.events ++ [e] }
  match EventManager.create_event_source e with
  | .error err => (Except.error err, s1)
  | .ok h => (Except.ok (h.create_notifications tenv id1 id2 now), s1)

namespace NotificationScheduler

/-- Scheduler runtime state: the registered job ids (one per event id, in
registration order) and the running flag. -/
structure SchedState where
  jobs : List Nat
  is_running : Bool
deriving DecidableEq, Repr

/-- Python `str.split()` with no separator: split on whitespace runs,
dropping empty fields (which also makes the preceding `strip()` a no-op);
`acc` holds the current field's characters in reverse. -/
def pySplit : List Char → List Char → List String
  | [], acc => if acc.isEmpty then [] else [String.mk acc.reverse]
  | c :: cs, acc =>
      if c.isWhitespace then
        if acc.isEmpty then pySplit cs []
        else String.mk acc.reverse :: pySplit cs []
      else pySplit cs (c :: acc)

/-- `NotificationScheduler._parse_cron` (scheduler.py lines 205-226):
`strip().split()` the expression; exactly five fields are required, `*`
becomes `None`; otherwise a `ValueError` is raised. -/
def parse_cron (expr : String) : Except String (List (Option String)) :=
  let parts := pySplit expr.data []
  if parts.length ≠ 5 then
    Except.error ("Invalid cron expression: " ++ expr)
  else
    Except.ok (parts.map (fun p => if p = "*" then none else some p))

/-- How one `_add_event_job` call ends: silently skipped (missing `cron`),
job added, or an exception re-raised to the caller. -/
inductive AddJobResult where
  | skipped
  | added
  | raised (msg : String)
deriving DecidableEq, Repr

/-- `scheduler.add_job` with `replace_existing=True`: re-adding an existing
job id replaces it in place, otherwise the id is appended. -/
def addJob (jobs : List Nat) (id : Nat) : List Nat :=
  if id ∈ jobs then jobs else jobs ++ [id]

/-- `NotificationScheduler._add_event_job` (scheduler.py lines 120-150): an
event without a `cron` key is logged and skipped (plain `return`); a cron
that fails to parse raises — the `except` clause logs and RE-RAISES; a good
cron registers the job under the event's id.  (APScheduler's own
field-validation inside `CronTrigger` is not modelled; a registration
failure is modelled at the five-field parse.) -/
def add_event_job (st : SchedState) (e : Event) : AddJobResult × SchedState :=
  match lookupData e.data "cron" with
  | none => (.skipped, st)
  | some c =>
      match parse_cron c with
      | .error msg => (.raised msg, st)
      | .ok _ => (.added, { st with jobs := addJob st.jobs e.id })

/-- The `for` loop of `_load_scheduled_events` (scheduler.py lines 79-80): an
exception raised by `_add_event_job` escapes the loop (to be caught by the
surrounding `except`, which only logs), so the remaining events are not
registered. -/
def load_loop (st : SchedState) : List Event → SchedState
  | [] => st
  | e :: es =>
      match add_event_job st e with
      | (.raised _, st') => st'
      | (_, st') => load_loop st' es

/-- `EventRepository.get_scheduled_events`: all events of type scheduled. -/
def getScheduledEvents (s : Store) : List Event :=
  s.events.filter (fun e => e.type == "scheduled")

/-- `NotificationScheduler.start` (scheduler.py lines 38-54) composed with
`_load_scheduled_events` (lines 70-83): no-op when already running, else run
the bulk load (whose own `except` swallows any raise) and flip to running. -/
def start (st : SchedState) (s : Store) : SchedState :=
  if st.is_running then st
  else { load_loop st (getScheduledEvents s) with is_running := true }

/-- `NotificationScheduler._create_event_instance` (scheduler.py lines
193-203): always attempts `DailyStatEvent(event)` — the classifier is not
consulted; a constructor raise is caught and `None` returned. -/
def create_event_instance (e : Event) : Option Handler :=
  match DailyStatEvent.construct e with
  | .ok h => some h
  | .error _ => none

/-- `EventRepository.get_scheduled_event_by_id`: first event with this id
and type scheduled. -/
def getScheduledEventById (s : Store) (event_id : Nat) : Option Event :=
  s.events.find? (fun e => e.id == event_id && e.type == "scheduled")

/-- `NotificationScheduler.process_scheduled_event` (scheduler.py lines
152-191): reload the event by id (log and return if gone), build the handler
via `_create_event_instance` (log and return if that fails), create the
drafts and send each through `NotificationService.send_notification`. -/
def process_scheduled_event (tenv : TemplateEnv) (cenv : ChannelEnv)
    (s : Store) (event_id : Nat) (id1 id2 : Nat) (now : Int) : Store :=
  match getScheduledEventById s event_id with
  | none => s
  | some e =>
      match create_event_instance e with
      | none => s
      | some h =>
          (h.create_notifications tenv id1 id2 now).foldl
            (fun acc n =>
              (NotificationService.send_notification cenv acc n now).2) s

end NotificationScheduler

/-! Concrete fixtures used to evaluate the development on closed inputs. -/

/-- A channel environment whose `send` always returns `False` (e.g. the
shipped `EmailChannel` when its file write fails). -/
def envReturnsFalse : ChannelEnv :=
  ⟨fun _ => true, fun _ _ => .returns false⟩

/-- A channel environment whose `send` always returns `True` (the shipped
channels on the happy path). -/
def envOk : ChannelEnv :=
  ⟨fun _ => true, fun _ _ => .returns true⟩

/-- A channel environment whose `send` always raises. -/
def envRaises : ChannelEnv :=
  ⟨fun _ => true, fun _ _ => .raises "transport down"⟩

/-- A template environment: render returns the template id, hash is the
identity digest. -/
def tenv0 : TemplateEnv := ⟨fun t _ => t, fun c => c⟩

/-- The empty store. -/
def emptyStore : Store := ⟨[], [], [], []⟩

/-- A fresh pending email draft. -/
def draft0 : Notification :=
  { id := 0, event_id := 0, template_id := "t", channel := "email",
    recipient := none, subject := none, content := "c", content_hash := "h",
    status := .pending, created_at := 0, sent_at := none }

/-- An already-sent notification with hash `h`, created at time 100. -/
def priorNotif : Notification :=
  { id := 1, event_id := 0, template_id := "t", channel := "email",
    recipient := none, subject := some "s", content := "c",
    content_hash := "h", status := .sent, created_at := 100,
    sent_at := some 100 }

/-- A store already holding `priorNotif`. -/
def storeWithPrior : Store := ⟨[], [priorNotif], [], []⟩

/-- A pending draft with the same content hash as `priorNotif`. -/
def draft2 : Notification :=
  { id := 2, event_id := 0, template_id := "t", channel := "email",
    recipient := none, subject := none, content := "c", content_hash := "h",
    status := .pending, created_at := 130, sent_at := none }

/-- A sent notification addressed to alice with hash `h2`. -/
def notifAlice : Notification :=
  { id := 5, event_id := 0, template_id := "t", channel := "email",
    recipient := some "alice", subject := some "s", content := "c2",
    content_hash := "h2", status := .sent, created_at := 100,
    sent_at := some 100 }

/-- A store already holding `notifAlice`. -/
def storeAlice : Store := ⟨[], [notifAlice], [], []⟩

/-- A pending draft for bob with the same content hash as `notifAlice`. -/
def draftBob : Notification :=
  { id := 6, event_id := 0, template_id := "t", channel := "email",
    recipient := some "bob", subject := none, content := "c2",
    content_hash := "h2", status := .pending, created_at := 105,
    sent_at := none }

/-- An event whose source names no registered handler. -/
def evUnknown : Event :=
  { id := 30, type := "realtime", data := [("source", "nope")],
    created_at := 0, processed := false }

/-- A `user_signup` event missing the `email` field. -/
def evSignupNoEmail : Event :=
  { id := 31, type := "realtime",
    data := [("source", "user_signup"), ("user_name", "u"),
             ("service_name", "svc"), ("recipient", "r"),
             ("slack_channel", "sc")],
    created_at := 0, processed := false }

/-- A scheduled event with a malformed (four-field) cron expression. -/
def evBadCron : Event :=
  { id := 10, type := "scheduled",
    data := [("source", "daily_stat"), ("cron", "0 9 * *")],
    created_at := 0, processed := false }

/-- A scheduled event with a well-formed cron expression. -/
def evGoodCron : Event :=
  { id := 11, type := "scheduled",
    data := [("source", "daily_stat"), ("cron", "* * * * *"),
             ("query", "q"), ("recipient", "r"), ("slack_channel", "sc")],
    created_at := 0, processed := false }

/-- A store whose scheduled events are `evBadCron` then `evGoodCron`. -/
def storeSched : Store := ⟨[evBadCron, evGoodCron], [], [], []⟩

/-- The scheduler before `start()`. -/
def stoppedState : NotificationScheduler.SchedState := ⟨[], false⟩

/-- A scheduled event whose declared source is `user_signup`, with every
signup field and a valid cron, but no `query` field. -/
def evSignupSched : Event :=
  { id := 20, type := "scheduled",
    data := [("source", "user_signup"), ("cron", "* * * * *"),
             ("user_name", "u"), ("email", "e"), ("service_name", "svc"),
             ("recipient", "r"), ("slack_channel", "sc")],
    created_at := 0, processed := false }

/-- A store holding only `evSignupSched`. -/
def storeSignupSched : Store := ⟨[evSignupSched], [], [], []⟩

/-- A `daily_stat` scheduled event with a valid cron but no `query` field. -/
def evDailyNoQuery : Event :=
  { id := 32, type := "scheduled",
    data := [("source", "daily_stat"), ("cron", "* * * * *"),
             ("recipient", "r"), ("slack_channel", "sc")],
    created_at := 0, processed := false }

/-- The handler-specific required data keys of each registered source, read
off the constructors: `SignupEvent.__init__` (signup_event.py lines 19-25)
requires `user_name`, `email`, `service_name`, `recipient` and
`slack_channel`; `DailyStatEvent.__init__` requires `cron` (via
`ScheduleEvent.__init__`, schedule_event.py lines 18-19) plus `query`,
`recipient` and `slack_channel` (daily_stat_event.py lines 19-23). -/
def requiredKeys (src : String) : List String :=
  if src = "user_signup" then
    ["user_name", "email", "service_name", "recipient", "slack_channel"]
  else if src = "daily_stat" then
    ["cron", "query", "recipient", "slack_channel"]
  else []

/-- The condition under which `_add_event_job` raises (rather than skipping
or succeeding): a `cron` key is present but fails `_parse_cron`. -/
def NotificationScheduler.registrationRaises (e : Event) : Bool :=
  match lookupData e.data "cron" with
  | none => false
  | some c =>
      match NotificationScheduler.parse_cron c with
      | .error _ => true
      | .ok _ => false

/-! Helper lemmas. -/

/-- Semantics of `NotificationRepository.any`. -/
theorem store_any_iff (s : Store) (id : Nat) (hash : String) (w now : Int) :
    Store.any s id hash w now = true ↔
      ∃ m ∈ s.notifications,
        m.content_hash = hash ∧ now - w ≤ m.created_at ∧ m.id ≠ id := by
  simp only [Store.any, List.any_eq_true, Bool.and_eq_true, beq_iff_eq,
    bne_iff_ne, decide_eq_true_eq]
  tauto

/-- A row with the candidate's own id never triggers `any` for that id. -/
theorem store_any_append_self (ev ev' : List Event) (ns : List Notification)
    (dl dl' : List String) (hi hi' : List (Nat × NotificationStatus))
    (x : Notification) (hash : String) (w now : Int) :
    Store.any ⟨ev, ns ++ [x], dl, hi⟩ x.id hash w now
      = Store.any ⟨ev', ns, dl', hi'⟩ x.id hash w now := by
  simp [Store.any, List.any_append]

/-- `DeduplicationManager.handle` with the shipped policy list: suppress and
log iff a different row with the same hash lies in the trailing 60s. -/
theorem handle_eq (s : Store) (n : Notification) (now : Int) :
    DeduplicationManager.handle s n now =
      if Store.any s n.id n.content_hash 60 now then
        (false, s.log_deduplication n.content_hash)
      else (true, s) := by
  simp only [DeduplicationManager.handle, DeduplicationManager.policies,
    DeduplicationManager.handle_loop, TimeWindowPolicy.should_send,
    TimeWindowPolicy.record_duplication]
  cases h : Store.any s n.id n.content_hash 60 now <;> simp [h]

/-- Finding a fresh id in an appended list reaches the appended row. -/
theorem find_id_append (ns : List Notification) (x : Notification) (id : Nat)
    (hx : x.id = id) (hfresh : ∀ m ∈ ns, m.id ≠ id) :
    (ns ++ [x]).find? (fun n => n.id == id) = some x := by
  induction ns with
  | nil => simp [List.find?, hx]
  | cons m ms ih =>
      have hbeq : (m.id == id) = false := by
        simpa using hfresh m (by simp)
      have ih' := ih (fun m' hm' => hfresh m' (by simp [hm']))
      simp [List.find?, hbeq, ih']

/-- Updating a fresh id in an appended list rewrites the appended row. -/
theorem updateFirst_append (f : Notification → Notification) (id : Nat)
    (ns : List Notification) (x : Notification)
    (hx : x.id = id) (hfresh : ∀ m ∈ ns, m.id ≠ id) :
    updateFirst f id (ns ++ [x]) = ns ++ [f x] := by
  induction ns with
  | nil => simp [updateFirst, hx]
  | cons m ms ih =>
      have hbeq : (m.id == id) = false := by
        simpa using hfresh m (by simp)
      have ih' := ih (fun m' hm' => hfresh m' (by simp [hm']))
      simp [updateFirst, hbeq, ih']

/-- `update_status` on a store whose only row with the target id is the last
one. -/
theorem update_status_append (ev : List Event) (ns : List Notification)
    (dl : List String) (hi : List (Nat × NotificationStatus))
    (x : Notification) (id : Nat) (status : NotificationStatus)
    (sent_at : Option Int) (now : Int)
    (hx : x.id = id) (hfresh : ∀ m ∈ ns, m.id ≠ id) :
    Store.update_status ⟨ev, ns ++ [x], dl, hi⟩ id status sent_at now =
      ⟨ev,
       ns ++ [{ x with
                status := status,
                sent_at :=
                  match sent_at with
                  | some t => some t
                  | none =>
                      if status = NotificationStatus.sent then some now
                      else x.sent_at }],
       dl, hi ++ [(id, status)]⟩ := by
  simp only [Store.update_status, Store.get, find_id_append ns x id hx hfresh]
  rw [updateFirst_append _ id ns x hx hfresh]

/-- Status getter on a store whose only row with the target id is last. -/
theorem statusOf_append (ev : List Event) (ns : List Notification)
    (dl : List String) (hi : List (Nat × NotificationStatus))
    (x : Notification) (id : Nat)
    (hx : x.id = id) (hfresh : ∀ m ∈ ns, m.id ≠ id) :
    Store.statusOf ⟨ev, ns ++ [x], dl, hi⟩ id = some x.status := by
  simp [Store.statusOf, Store.get, find_id_append ns x id hx hfresh]

/-- `sent_at` getter on a store whose only row with the target id is last. -/
theorem sentAtOf_append (ev : List Event) (ns : List Notification)
    (dl : List String) (hi : List (Nat × NotificationStatus))
    (x : Notification) (id : Nat)
    (hx : x.id = id) (hfresh : ∀ m ∈ ns, m.id ≠ id) :
    Store.sentAtOf ⟨ev, ns ++ [x], dl, hi⟩ id = some x.sent_at := by
  simp [Store.sentAtOf, Store.get, find_id_append ns x id hx hfresh]

/-- Unfolded form of `send_notification`: persist the subject-defaulted
draft, then branch on the dedup check against the pre-existing rows, then on
the channel call's outcome. -/
theorem send_notification_eq (env : ChannelEnv) (s : Store)
    (n : Notification) (now : Int) :
    NotificationService.send_notification env s n now =
      (if Store.any s n.id n.content_hash 60 now then
        (false,
          Store.update_status
            ⟨s.events,
             s.notifications ++ [{ n with subject := some (defaultSubject n.subject) }],
             s.dedup_log ++ [n.content_hash],
             s.history ++ [(n.id, n.status)]⟩
            n.id NotificationStatus.duplicate (some now) now)
      else
        match ChannelManager.send env
            { n with subject := some (defaultSubject n.subject) } with
        | .error _ =>
            (false,
              Store.update_status
                ⟨s.events,
                 s.notifications ++ [{ n with subject := some (defaultSubject n.subject) }],
                 s.dedup_log,
                 s.history ++ [(n.id, n.status)]⟩
                n.id NotificationStatus.failed none now)
        | .ok _ =>
            (true,
              Store.update_status
                ⟨s.events,
                 s.notifications ++ [{ n with subject := some (defaultSubject n.subject) }],
                 s.dedup_log,
                 s.history ++ [(n.id, n.status)]⟩
                n.id NotificationStatus.sent (some now) now)) := by
  have hany :
      Store.any
        ⟨s.events,
         s.notifications ++ [{ n with subject := some (defaultSubject n.subject) }],
         s.dedup_log, s.history ++ [(n.id, n.status)]⟩
        n.id n.content_hash 60 now
        = Store.any s n.id n.content_hash 60 now := by
    have := store_any_append_self s.events s.events s.notifications
      s.dedup_log s.dedup_log (s.history ++ [(n.id, n.status)]) s.history
      { n with subject := some (defaultSubject n.subject) }
      n.content_hash 60 now
    simpa using this
  simp only [NotificationService.send_notification,
    NotificationService.send_notification_body, Store.create_from_instance,
    handle_eq, Store.log_deduplication]
  simp only [hany]
  cases h : Store.any s n.id n.content_hash 60 now with
  | true => simp
  | false =>
      simp only [Bool.false_eq_true, if_false, Bool.not_false, if_true]
      cases hc : ChannelManager.send env
          { n with subject := some (defaultSubject n.subject) } <;> simp

/-- Unfolded form of the `try:` body of `send_notification`. -/
theorem send_notification_body_eq (env : ChannelEnv) (s : Store)
    (n : Notification) (now : Int) :
    NotificationService.send_notification_body env s n now =
      (if Store.any s n.id n.content_hash 60 now then
        Except.ok (false,
          Store.update_status
            ⟨s.events,
             s.notifications ++ [{ n with subject := some (defaultSubject n.subject) }],
             s.dedup_log ++ [n.content_hash],
             s.history ++ [(n.id, n.status)]⟩
            n.id NotificationStatus.duplicate (some now) now)
      else
        match ChannelManager.send env
            { n with subject := some (defaultSubject n.subject) } with
        | .error msg =>
            Except.error (msg,
              ⟨s.events,
               s.notifications ++ [{ n with subject := some (defaultSubject n.subject) }],
               s.dedup_log,
               s.history ++ [(n.id, n.status)]⟩)
        | .ok _ =>
            Except.ok (true,
              Store.update_status
                ⟨s.events,
                 s.notifications ++ [{ n with subject := some (defaultSubject n.subject) }],
                 s.dedup_log,
                 s.history ++ [(n.id, n.status)]⟩
                n.id NotificationStatus.sent (some now) now)) := by
  have hany :
      Store.any
        ⟨s.events,
         s.notifications ++ [{ n with subject := some (defaultSubject n.subject) }],
         s.dedup_log, s.history ++ [(n.id, n.status)]⟩
        n.id n.content_hash 60 now
        = Store.any s n.id n.content_hash 60 now := by
    have := store_any_append_self s.events s.events s.notifications
      s.dedup_log s.dedup_log (s.history ++ [(n.id, n.status)]) s.history
      { n with subject := some (defaultSubject n.subject) }
      n.content_hash 60 now
    simpa using this
  simp only [NotificationService.send_notification_body,
    Store.create_from_instance, handle_eq, Store.log_deduplication]
  simp only [hany]
  cases h : Store.any s n.id n.content_hash 60 now with
  | true => simp
  | false =>
      simp only [Bool.false_eq_true, if_false, Bool.not_false, if_true]
      cases hc : ChannelManager.send env
          { n with subject := some (defaultSubject n.subject) } <;> simp

/-- The first projection of `handle` is the negated window check. -/
theorem handle_fst (s : Store) (n : Notification) (now : Int) :
    (DeduplicationManager.handle s n now).1
      = !(Store.any s n.id n.content_hash 60 now) := by
  rw [handle_eq]
  cases h : Store.any s n.id n.content_hash 60 now <;> simp

/-- C5: the shipped time-window policy suppresses a candidate iff a row with
a different id and the same content hash was created within the trailing 60
seconds (the default window) of now; in particular, when every identical-hash
row is strictly older than the window, the candidate is not suppressed. -/
theorem C5_theorem (s : Store) (n : Notification) (now : Int) :
    ((DeduplicationManager.handle s n now).1 = false ↔
      ∃ m ∈ s.notifications,
        m.content_hash = n.content_hash ∧ now - 60 ≤ m.created_at
          ∧ m.id ≠ n.id)
  ∧ ((∀ m ∈ s.notifications,
        m.id ≠ n.id → m.content_hash = n.content_hash →
          60 < now - m.created_at) →
      (DeduplicationManager.handle s n now).1 = true) := by
  have key : (DeduplicationManager.handle s n now).1 = false ↔
      Store.any s n.id n.content_hash 60 now = true := by
    rw [handle_fst]
    cases h : Store.any s n.id n.content_hash 60 now <;> simp
  constructor
  · rw [key, store_any_iff]
  · intro hall
    cases hb : (DeduplicationManager.handle s n now).1 with
    | true => rfl
    | false =>
        exfalso
        obtain ⟨m, hm, hh, hw, hid⟩ :=
          (store_any_iff s n.id n.content_hash 60 now).mp (key.mp hb)
        have := hall m hm hid hh
        omega

/-- C5 witness: a same-hash row created 30 seconds before the check
suppresses the candidate. -/
theorem C5_witness :
    (DeduplicationManager.handle storeWithPrior draft2 130).1 = false :=
  (C5_theorem storeWithPrior draft2 130).1.mpr
    ⟨priorNotif, by decide, by decide, by decide, by decide⟩

/-- C6: the suppression decision never reads recipients — a same-hash row for
a different recipient inside the window suppresses the candidate, and
rewriting the recipient of the candidate and of every stored row leaves the
decision unchanged. -/
theorem C6_theorem (s : Store) (n n1 : Notification) (now : Int)
    (h1 : n1 ∈ s.notifications) (hid : n1.id ≠ n.id)
    (hh : n1.content_hash = n.content_hash)
    (hw : now - n1.created_at ≤ 60)
    (_hr : n1.recipient ≠ n.recipient) :
    (DeduplicationManager.handle s n now).1 = false
  ∧ ∀ (g : Notification → Option String) (r : Option String),
      (DeduplicationManager.handle
          { s with notifications :=
              s.notifications.map (fun m => { m with recipient := g m }) }
          { n with recipient := r } now).1
        = (DeduplicationManager.handle s n now).1 := by
  constructor
  · rw [handle_fst]
    have : Store.any s n.id n.content_hash 60 now = true :=
      (store_any_iff s n.id n.content_hash 60 now).mpr
        ⟨n1, h1, hh, by omega, hid⟩
    simp [this]
  · intro g r
    rw [handle_fst, handle_fst]
    congr 1
    simp only [Store.any, List.any_map]
    rfl

/-- C6 witness: alice's sent report suppresses bob's identical-content draft
five seconds later. -/
theorem C6_witness :
    (DeduplicationManager.handle storeAlice draftBob 105).1 = false :=
  (C6_theorem storeAlice draftBob notifAlice 105 (by decide) (by decide)
    (by decide) (by decide) (by decide)).1

/-- C1 counterexample: a channel whose `send` returns `False` — the claim
maps this to status failed and return `False`, but the service ignores the
channel's boolean, marks the notification sent and returns `True`. -/
theorem C1_counterexample :
    envReturnsFalse.send "email" draft0 = SendOutcome.returns false
  ∧ (NotificationService.send_notification envReturnsFalse emptyStore
      draft0 0).1 = true
  ∧ Store.statusOf (NotificationService.send_notification envReturnsFalse
      emptyStore draft0 0).2 0 = some NotificationStatus.sent := by
  exact ⟨rfl, rfl, rfl⟩

/-- C1 (amended): for a fresh, non-suppressed draft the service dispatches
via the channel keyed by `notification.channel`; whenever the dispatch call
returns without raising — whatever boolean it returns — the status becomes
sent with `sentAt = now` and `True` is returned; only when the dispatch
raises (which includes an unknown channel and an invalid channel config)
does the status become failed with no `sentAt`, returning `False`. -/
theorem C1_amended_theorem (env : ChannelEnv) (s : Store) (n : Notification)
    (now : Int)
    (hfresh : ∀ m ∈ s.notifications, m.id ≠ n.id)
    (hnodup : Store.any s n.id n.content_hash 60 now = false)
    (hsent : n.sent_at = none) :
    ((∃ b, ChannelManager.send env
        { n with subject := some (defaultSubject n.subject) }
          = Except.ok b) →
      (NotificationService.send_notification env s n now).1 = true
      ∧ Store.statusOf
          (NotificationService.send_notification env s n now).2 n.id
          = some NotificationStatus.sent
      ∧ Store.sentAtOf
          (NotificationService.send_notification env s n now).2 n.id
          = some (some now))
  ∧ ((∃ msg, ChannelManager.send env
        { n with subject := some (defaultSubject n.subject) }
          = Except.error msg) →
      (NotificationService.send_notification env s n now).1 = false
      ∧ Store.statusOf
          (NotificationService.send_notification env s n now).2 n.id
          = some NotificationStatus.failed
      ∧ Store.sentAtOf
          (NotificationService.send_notification env s n now).2 n.id
          = some none) := by
  have hsend := send_notification_eq env s n now
  simp only [hnodup, Bool.false_eq_true, if_false] at hsend
  constructor
  · rintro ⟨b, hb⟩
    rw [hb] at hsend
    rw [update_status_append s.events s.notifications s.dedup_log
      (s.history ++ [(n.id, n.status)])
      { n with subject := some (defaultSubject n.subject) } n.id
      NotificationStatus.sent (some now) now rfl hfresh] at hsend
    refine ⟨by rw [hsend], ?_, ?_⟩
    · rw [hsend]
      exact statusOf_append _ _ _ _ _ _ rfl hfresh
    · rw [hsend]
      exact sentAtOf_append _ _ _ _ _ _ rfl hfresh
  · rintro ⟨msg, hb⟩
    rw [hb] at hsend
    rw [update_status_append s.events s.notifications s.dedup_log
      (s.history ++ [(n.id, n.status)])
      { n with subject := some (defaultSubject n.subject) } n.id
      NotificationStatus.failed none now rfl hfresh] at hsend
    refine ⟨by rw [hsend], ?_, ?_⟩
    · rw [hsend]
      exact statusOf_append _ _ _ _ _ _ rfl hfresh
    · rw [hsend]
      have := sentAtOf_append s.events s.notifications s.dedup_log
        ((s.history ++ [(n.id, n.status)]) ++
          [(n.id, NotificationStatus.failed)])
        { n with subject := some (defaultSubject n.subject),
                 status := NotificationStatus.failed } n.id rfl hfresh
      simpa [hsent] using this

/-- C1 witness: the amended dispatch contract evaluated on a fresh draft and
a channel whose send returns `False`. -/
theorem C1_witness :
    (NotificationService.send_notification envReturnsFalse emptyStore
      draft0 0).1 = true
  ∧ Store.statusOf (NotificationService.send_notification envReturnsFalse
      emptyStore draft0 0).2 draft0.id = some NotificationStatus.sent
  ∧ Store.sentAtOf (NotificationService.send_notification envReturnsFalse
      emptyStore draft0 0).2 draft0.id = some (some 0) :=
  (C1_amended_theorem envReturnsFalse emptyStore draft0 0 (by decide)
    (by decide) rfl).1 ⟨false, rfl⟩

/-- C2 counterexample: a suppressed duplicate does get a `sentAt` — the
service passes `utcnow()` as the `sent_at` argument when recording the
duplicate status, contradicting the claim's no-`sentAt` clause. -/
theorem C2_counterexample :
    (NotificationService.send_notification envOk storeWithPrior
      draft2 130).1 = false
  ∧ Store.statusOf (NotificationService.send_notification envOk
      storeWithPrior draft2 130).2 2 = some NotificationStatus.duplicate
  ∧ Store.sentAtOf (NotificationService.send_notification envOk
      storeWithPrior draft2 130).2 2 = some (some 130)
  ∧ Store.sentAtOf (NotificationService.send_notification envOk
      storeWithPrior draft2 130).2 2 ≠ some none := by
  exact ⟨rfl, rfl, rfl, by decide⟩

/-- C2 (amended): every draft is first persisted as pending before any dedup
or dispatch decision — the status history gains `(id, pending)` first in all
branches — and a suppressed draft ends with status duplicate, `sentAt` set to
the suppression time, and return value `False`. -/
theorem C2_amended_theorem (env : ChannelEnv) (s : Store) (n : Notification)
    (now : Int)
    (hfresh : ∀ m ∈ s.notifications, m.id ≠ n.id)
    (hpend : n.status = NotificationStatus.pending) :
    (∃ rest, (NotificationService.send_notification env s n now).2.history
        = s.history ++ (n.id, NotificationStatus.pending) :: rest)
  ∧ (Store.any s n.id n.content_hash 60 now = true →
      (NotificationService.send_notification env s n now).1 = false
      ∧ Store.statusOf
          (NotificationService.send_notification env s n now).2 n.id
          = some NotificationStatus.duplicate
      ∧ Store.sentAtOf
          (NotificationService.send_notification env s n now).2 n.id
          = some (some now)) := by
  have hsend := send_notification_eq env s n now
  constructor
  · cases hany : Store.any s n.id n.content_hash 60 now with
    | true =>
        simp only [hany, if_true] at hsend
        rw [update_status_append s.events s.notifications
          (s.dedup_log ++ [n.content_hash]) (s.history ++ [(n.id, n.status)])
          { n with subject := some (defaultSubject n.subject) } n.id
          NotificationStatus.duplicate (some now) now rfl hfresh] at hsend
        exact ⟨[(n.id, NotificationStatus.duplicate)],
          by rw [hsend]; simp [hpend]⟩
    | false =>
        simp only [hany, Bool.false_eq_true, if_false] at hsend
        cases hc : ChannelManager.send env
            { n with subject := some (defaultSubject n.subject) } with
        | ok b =>
            rw [hc] at hsend
            rw [update_status_append s.events s.notifications s.dedup_log
              (s.history ++ [(n.id, n.status)])
              { n with subject := some (defaultSubject n.subject) } n.id
              NotificationStatus.sent (some now) now rfl hfresh] at hsend
            exact ⟨[(n.id, NotificationStatus.sent)],
              by rw [hsend]; simp [hpend]⟩
        | error msg =>
            rw [hc] at hsend
            rw [update_status_append s.events s.notifications s.dedup_log
              (s.history ++ [(n.id, n.status)])
              { n with subject := some (defaultSubject n.subject) } n.id
              NotificationStatus.failed none now rfl hfresh] at hsend
            exact ⟨[(n.id, NotificationStatus.failed)],
              by rw [hsend]; simp [hpend]⟩
  · intro hany
    simp only [hany, if_true] at hsend
    rw [update_status_append s.events s.notifications
      (s.dedup_log ++ [n.content_hash]) (s.history ++ [(n.id, n.status)])
      { n with subject := some (defaultSubject n.subject) } n.id
      NotificationStatus.duplicate (some now) now rfl hfresh] at hsend
    refine ⟨by rw [hsend], ?_, ?_⟩
    · rw [hsend]
      exact statusOf_append _ _ _ _ _ _ rfl hfresh
    · rw [hsend]
      exact sentAtOf_append _ _ _ _ _ _ rfl hfresh

/-- C2 witness: the amended contract evaluated on a suppressed duplicate. -/
theorem C2_witness :
    (NotificationService.send_notification envOk storeWithPrior
      draft2 130).1 = false
  ∧ Store.statusOf (NotificationService.send_notification envOk
      storeWithPrior draft2 130).2 draft2.id
      = some NotificationStatus.duplicate
  ∧ Store.sentAtOf (NotificationService.send_notification envOk
      storeWithPrior draft2 130).2 draft2.id = some (some 130) :=
  (C2_amended_theorem envOk storeWithPrior draft2 130 (by decide) rfl).2
    (by decide)

/-- C3: for every channel behaviour, `send_notification` returns a boolean
with the stored row in a terminal status, and whenever the try-body raises
(channel raise, unknown channel, invalid config) the exception is caught and
mapped to status failed with return value `False` — it never propagates. -/
theorem C3_theorem (env : ChannelEnv) (s : Store) (n : Notification)
    (now : Int)
    (hfresh : ∀ m ∈ s.notifications, m.id ≠ n.id) :
    (∃ t : NotificationStatus,
        Store.statusOf
          (NotificationService.send_notification env s n now).2 n.id = some t
        ∧ t.isTerminal = true)
  ∧ (∀ e, NotificationService.send_notification_body env s n now
        = Except.error e →
      (NotificationService.send_notification env s n now).1 = false
      ∧ Store.statusOf
          (NotificationService.send_notification env s n now).2 n.id
          = some NotificationStatus.failed) := by
  have hsend := send_notification_eq env s n now
  have hbody := send_notification_body_eq env s n now
  cases hany : Store.any s n.id n.content_hash 60 now with
  | true =>
      simp only [hany, if_true] at hsend hbody
      rw [update_status_append s.events s.notifications
        (s.dedup_log ++ [n.content_hash]) (s.history ++ [(n.id, n.status)])
        { n with subject := some (defaultSubject n.subject) } n.id
        NotificationStatus.duplicate (some now) now rfl hfresh] at hsend
      constructor
      · exact ⟨NotificationStatus.duplicate,
          by rw [hsend]; exact statusOf_append _ _ _ _ _ _ rfl hfresh, rfl⟩
      · intro e he
        rw [hbody] at he
        exact absurd he (by simp)
  | false =>
      simp only [hany, Bool.false_eq_true, if_false] at hsend hbody
      cases hc : ChannelManager.send env
          { n with subject := some (defaultSubject n.subject) } with
      | ok b =>
          rw [hc] at hsend hbody
          rw [update_status_append s.events s.notifications s.dedup_log
            (s.history ++ [(n.id, n.status)])
            { n with subject := some (defaultSubject n.subject) } n.id
            NotificationStatus.sent (some now) now rfl hfresh] at hsend
          constructor
          · exact ⟨NotificationStatus.sent,
              by rw [hsend]; exact statusOf_append _ _ _ _ _ _ rfl hfresh,
              rfl⟩
          · intro e he
            rw [hbody] at he
            exact absurd he (by simp)
      | error msg =>
          rw [hc] at hsend hbody
          rw [update_status_append s.events s.notifications s.dedup_log
            (s.history ++ [(n.id, n.status)])
            { n with subject := some (defaultSubject n.subject) } n.id
            NotificationStatus.failed none now rfl hfresh] at hsend
          constructor
          · exact ⟨NotificationStatus.failed,
              by rw [hsend]; exact statusOf_append _ _ _ _ _ _ rfl hfresh,
              rfl⟩
          · intro e _
            exact ⟨by rw [hsend],
              by rw [hsend]; exact statusOf_append _ _ _ _ _ _ rfl hfresh⟩

/-- C3 witness: a raising channel is caught and mapped to failed/False. -/
theorem C3_witness :
    (NotificationService.send_notification envRaises emptyStore
      draft0 0).1 = false
  ∧ Store.statusOf (NotificationService.send_notification envRaises
      emptyStore draft0 0).2 draft0.id = some NotificationStatus.failed :=
  (C3_theorem envRaises emptyStore draft0 0 (by decide)).2 _ rfl

/-- C4: starting from a pending draft with no prior rows or history for its
id, the observed status sequence written to storage is exactly pending
followed by one terminal status — the transition happens exactly once, the
status is never again pending, and it never reverts. -/
theorem C4_theorem (env : ChannelEnv) (s : Store) (n : Notification)
    (now : Int)
    (hfresh : ∀ m ∈ s.notifications, m.id ≠ n.id)
    (hpend : n.status = NotificationStatus.pending)
    (hhist : ∀ e ∈ s.history, e.1 ≠ n.id) :
    ∃ t : NotificationStatus, t.isTerminal = true
      ∧ Store.statusOf
          (NotificationService.send_notification env s n now).2 n.id = some t
      ∧ (((NotificationService.send_notification env s n now).2.history.filter
            (fun e => e.1 == n.id)).map (fun e => e.2))
          = [NotificationStatus.pending, t] := by
  have hsend := send_notification_eq env s n now
  have hfilter : s.history.filter (fun e => e.1 == n.id) = [] := by
    rw [List.filter_eq_nil_iff]
    intro a ha
    simpa using hhist a ha
  cases hany : Store.any s n.id n.content_hash 60 now with
  | true =>
      simp only [hany, if_true] at hsend
      rw [update_status_append s.events s.notifications
        (s.dedup_log ++ [n.content_hash]) (s.history ++ [(n.id, n.status)])
        { n with subject := some (defaultSubject n.subject) } n.id
        NotificationStatus.duplicate (some now) now rfl hfresh] at hsend
      refine ⟨NotificationStatus.duplicate, rfl, ?_, ?_⟩
      · rw [hsend]
        exact statusOf_append _ _ _ _ _ _ rfl hfresh
      · rw [hsend]
        simp [List.filter_append, hfilter, hpend]
  | false =>
      simp only [hany, Bool.false_eq_true, if_false] at hsend
      cases hc : ChannelManager.send env
          { n with subject := some (defaultSubject n.subject) } with
      | ok b =>
          rw [hc] at hsend
          rw [update_status_append s.events s.notifications s.dedup_log
            (s.history ++ [(n.id, n.status)])
            { n with subject := some (defaultSubject n.subject) } n.id
            NotificationStatus.sent (some now) now rfl hfresh] at hsend
          refine ⟨NotificationStatus.sent, rfl, ?_, ?_⟩
          · rw [hsend]
            exact statusOf_append _ _ _ _ _ _ rfl hfresh
          · rw [hsend]
            simp [List.filter_append, hfilter, hpend]
      | error msg =>
          rw [hc] at hsend
          rw [update_status_append s.events s.notifications s.dedup_log
            (s.history ++ [(n.id, n.status)])
            { n with subject := some (defaultSubject n.subject) } n.id
            NotificationStatus.failed none now rfl hfresh] at hsend
          refine ⟨NotificationStatus.failed, rfl, ?_, ?_⟩
          · rw [hsend]
            exact statusOf_append _ _ _ _ _ _ rfl hfresh
          · rw [hsend]
            simp [List.filter_append, hfilter, hpend]

/-- C4 witness: the single-shot pending-to-terminal transition evaluated on
a fresh draft over the empty store. -/
theorem C4_witness :
    ∃ t : NotificationStatus, t.isTerminal = true
      ∧ Store.statusOf
          (NotificationService.send_notification envOk emptyStore
            draft0 0).2 draft0.id = some t
      ∧ (((NotificationService.send_notification envOk emptyStore
            draft0 0).2.history.filter
            (fun e => e.1 == draft0.id)).map (fun e => e.2))
          = [NotificationStatus.pending, t] :=
  C4_theorem envOk emptyStore draft0 0 (by decide) rfl (by decide)

/-- C10: persisting a draft stores subject No Subject when the draft subject
is unset or empty, stores a non-empty subject unchanged, and appends exactly
the returned row. -/
theorem C10_theorem (s : Store) (n : Notification) :
    ((n.subject = none ∨ n.subject = some "") →
      (s.create_from_instance n).1.subject = some "No Subject")
  ∧ (∀ str, n.subject = some str → str ≠ "" →
      (s.create_from_instance n).1.subject = some str)
  ∧ (s.create_from_instance n).2.notifications
      = s.notifications ++ [(s.create_from_instance n).1] := by
  refine ⟨?_, ?_, ?_⟩
  · rintro (h | h) <;> simp [Store.create_from_instance, defaultSubject, h]
  · intro str h hne
    simp [Store.create_from_instance, defaultSubject, h, hne]
  · simp [Store.create_from_instance]

/-- C10 witness: a subjectless draft is stored as No Subject and a non-empty
subject is stored unchanged. -/
theorem C10_witness :
    (emptyStore.create_from_instance draft0).1.subject = some "No Subject"
  ∧ (emptyStore.create_from_instance priorNotif).1.subject = some "s" :=
  ⟨(C10_theorem emptyStore draft0).1 (Or.inl rfl),
   (C10_theorem emptyStore priorNotif).2.1 "s" rfl (by decide)⟩

/-- Binding a failed `Except` computation propagates the error. -/
theorem except_bind_error {α β γ : Type} (e : γ) (f : α → Except γ β) :
    (Except.error e >>= f) = Except.error e := rfl

/-- Binding a successful `Except` computation applies the continuation. -/
theorem except_bind_ok {α β γ : Type} (a : α) (f : α → Except γ β) :
    (Except.ok a >>= f) = f a := rfl

/-- C9: classification errors — an unregistered source yields the
unknown-source error; for every event whose source names a registered
handler, the absence of any of that handler's required keys makes handler
construction fail with a missing-field error; and whenever the realtime
path's classification fails, the notification table and the dedup log are
left untouched (`create_event_source` itself takes no store at all). -/
theorem C9_theorem :
    (∀ (e : Event) (src : String), lookupData e.data "source" = some src →
      src ≠ "daily_stat" → src ≠ "user_signup" →
      EventManager.create_event_source e
        = Except.error (ClassifyError.unknownSource src))
  ∧ (∀ (e : Event) (src k : String),
      lookupData e.data "source" = some src →
      k ∈ requiredKeys src →
      lookupData e.data k = none →
      ∃ msg, EventManager.create_event_source e
        = Except.error (ClassifyError.missingField msg))
  ∧ (∀ (tenv : TemplateEnv) (s : Store)
        (event_data : List (String × String)) (eid id1 id2 : Nat)
        (now : Int) (err : ClassifyError),
      (EventManager.process_realtime_event tenv s event_data eid id1 id2
          now).1 = Except.error err →
      ((EventManager.process_realtime_event tenv s event_data eid id1 id2
          now).2).notifications = s.notifications
      ∧ ((EventManager.process_realtime_event tenv s event_data eid id1 id2
          now).2).dedup_log = s.dedup_log) := by
  refine ⟨?_, ?_, ?_⟩
  · intro e src h hs1 hs2
    have h1 : (("daily_stat" : String) == src) = false := by
      simpa using Ne.symm hs1
    have h2 : (("user_signup" : String) == src) = false := by
      simpa using Ne.symm hs2
    simp [EventManager.create_event_source, EventManager.EVENT_TYPE_MAP, h,
      List.find?, h1, h2]
  · intro e src k hsrc hk hnone
    by_cases h1 : src = "user_signup"
    · subst h1
      have hnone' : (lookupData e.data k).isNone = true := by simp [hnone]
      simp [requiredKeys] at hk
      refine ⟨"Missing required fields in event data", ?_⟩
      rcases hk with rfl | rfl | rfl | rfl | rfl <;>
        simp [EventManager.create_event_source, EventManager.EVENT_TYPE_MAP,
          hsrc, List.find?, SignupEvent.construct, hnone']
    · by_cases h2 : src = "daily_stat"
      · subst h2
        simp [requiredKeys] at hk
        have hfind : EventManager.create_event_source e
            = DailyStatEvent.construct e := by
          simp [EventManager.create_event_source,
            EventManager.EVENT_TYPE_MAP, hsrc, List.find?]
        rcases hk with rfl | rfl | rfl | rfl
        · refine ⟨"Missing cron field in scheduled event data", ?_⟩
          rw [hfind]
          unfold DailyStatEvent.construct
          rw [show ScheduleEvent.validateCron e
              = Except.error (ClassifyError.missingField
                  "Missing cron field in scheduled event data") from by
            simp [ScheduleEvent.validateCron, hnone]]
          rw [except_bind_error]
        all_goals {
          cases hcron : lookupData e.data "cron" with
          | none =>
              refine ⟨"Missing cron field in scheduled event data", ?_⟩
              rw [hfind]
              unfold DailyStatEvent.construct
              rw [show ScheduleEvent.validateCron e
                  = Except.error (ClassifyError.missingField
                      "Missing cron field in scheduled event data") from by
                simp [ScheduleEvent.validateCron, hcron]]
              rw [except_bind_error]
          | some c =>
              refine ⟨"Missing required fields in event data", ?_⟩
              rw [hfind]
              unfold DailyStatEvent.construct
              rw [show ScheduleEvent.validateCron e = Except.ok c from by
                simp [ScheduleEvent.validateCron, hcron]]
              rw [except_bind_ok]
              simp [hnone] }
      · exfalso
        simp [requiredKeys, h1, h2] at hk
  · intro tenv s event_data eid id1 id2 now err herr
    simp only [EventManager.process_realtime_event] at herr ⊢
    cases hcls : EventManager.create_event_source
        { id := eid, type := "realtime", data := event_data,
          created_at := now, processed := false } with
    | error e0 => simp [hcls]
    | ok h0 =>
        rw [hcls] at herr
        simp at herr

/-- C9 witness: the classification errors evaluated on an unknown source, on
a signup event missing its email, and on a daily-stat event missing its
query. -/
theorem C9_witness :
    EventManager.create_event_source evUnknown
      = Except.error (ClassifyError.unknownSource "nope")
  ∧ (∃ msg, EventManager.create_event_source evSignupNoEmail
      = Except.error (ClassifyError.missingField msg))
  ∧ (∃ msg, EventManager.create_event_source evDailyNoQuery
      = Except.error (ClassifyError.missingField msg)) :=
  ⟨C9_theorem.1 evUnknown "nope" rfl (by decide) (by decide),
   C9_theorem.2.1 evSignupNoEmail "user_signup" "email" rfl (by decide) rfl,
   C9_theorem.2.1 evDailyNoQuery "daily_stat" "query" rfl (by decide) rfl⟩

/-- Characterization of the scheduler's bulk-load loop: events are processed
in order up to (and excluding) the first whose registration raises; among
those, exactly the events carrying a `cron` key get a job. -/
theorem load_loop_spec (es : List Event)
    (st : NotificationScheduler.SchedState)
    (hdisj : ∀ e ∈ es, e.id ∉ st.jobs)
    (hnodup : (es.map (fun e => e.id)).Nodup) :
    (NotificationScheduler.load_loop st es).jobs
      = st.jobs ++
        (((es.takeWhile
            (fun e => !(NotificationScheduler.registrationRaises e))).filter
          (fun e => (lookupData e.data "cron").isSome)).map (fun e => e.id))
  ∧ (NotificationScheduler.load_loop st es).is_running = st.is_running := by
  induction es generalizing st with
  | nil => simp [NotificationScheduler.load_loop]
  | cons e es ih =>
      rw [List.map_cons] at hnodup
      have hnd := List.nodup_cons.mp hnodup
      cases hcron : lookupData e.data "cron" with
      | none =>
          have hraise :
              NotificationScheduler.registrationRaises e = false := by
            simp [NotificationScheduler.registrationRaises, hcron]
          have hstep : NotificationScheduler.add_event_job st e
              = (NotificationScheduler.AddJobResult.skipped, st) := by
            simp [NotificationScheduler.add_event_job, hcron]
          have htail := ih st (fun e' he' => hdisj e' (by simp [he'])) hnd.2
          simp [NotificationScheduler.load_loop, hstep, hraise, hcron,
            htail.1, htail.2]
      | some c =>
          cases hp : NotificationScheduler.parse_cron c with
          | error msg =>
              have hraise :
                  NotificationScheduler.registrationRaises e = true := by
                simp [NotificationScheduler.registrationRaises, hcron, hp]
              have hstep : NotificationScheduler.add_event_job st e
                  = (NotificationScheduler.AddJobResult.raised msg, st) := by
                simp [NotificationScheduler.add_event_job, hcron, hp]
              simp [NotificationScheduler.load_loop, hstep, hraise]
          | ok parts =>
              have hraise :
                  NotificationScheduler.registrationRaises e = false := by
                simp [NotificationScheduler.registrationRaises, hcron, hp]
              have hmem : e.id ∉ st.jobs := hdisj e (by simp)
              have hstep : NotificationScheduler.add_event_job st e
                  = (NotificationScheduler.AddJobResult.added,
                     ⟨st.jobs ++ [e.id], st.is_running⟩) := by
                simp [NotificationScheduler.add_event_job, hcron, hp,
                  NotificationScheduler.addJob, hmem]
              have htail := ih ⟨st.jobs ++ [e.id], st.is_running⟩
                (by
                  intro e' he'
                  have h1 : e'.id ∉ st.jobs := hdisj e' (by simp [he'])
                  have h2 : e'.id ≠ e.id := by
                    intro hEq
                    exact hnd.1 (hEq ▸ List.mem_map_of_mem _ he')
                  simp [h1, h2])
                hnd.2
              simp [NotificationScheduler.load_loop, hstep, hraise, hcron,
                htail.1, htail.2]

/-- C7 counterexample: with a malformed-cron event loaded before a good one,
`start()` flips to running, and although the good event's own registration
would succeed, its job is NOT registered — the raise aborted the remaining
registrations, contradicting the claim. -/
theorem C7_counterexample :
    (NotificationScheduler.start stoppedState storeSched).is_running = true
  ∧ (NotificationScheduler.add_event_job stoppedState evGoodCron).1
      = NotificationScheduler.AddJobResult.added
  ∧ (NotificationScheduler.start stoppedState storeSched).jobs = [] := by
  refine ⟨by decide, by decide, by decide⟩

/-- C7 (amended): on `start()` with the scheduler stopped, persisted
scheduled events are registered in order; an event missing its `cron` key is
skipped (logged) and the remaining registrations proceed, but an event whose
registration raises (e.g. malformed cron) aborts all later registrations —
the bulk-load exception is swallowed, so the scheduler still flips to
running. -/
theorem C7_amended_theorem (st : NotificationScheduler.SchedState)
    (s : Store)
    (hrun : st.is_running = false) (hjobs : st.jobs = [])
    (hnodup :
      ((NotificationScheduler.getScheduledEvents s).map
        (fun e => e.id)).Nodup) :
    (NotificationScheduler.start st s).is_running = true
  ∧ (NotificationScheduler.start st s).jobs
      = ((((NotificationScheduler.getScheduledEvents s).takeWhile
            (fun e => !(NotificationScheduler.registrationRaises e))).filter
          (fun e => (lookupData e.data "cron").isSome)).map
            (fun e => e.id)) := by
  have h := load_loop_spec (NotificationScheduler.getScheduledEvents s) st
    (by simp [hjobs]) hnodup
  constructor
  · simp [NotificationScheduler.start, hrun]
  · simp [NotificationScheduler.start, hrun, h.1, hjobs]

/-- C7 witness: the amended start contract evaluated on the bad-then-good
store. -/
theorem C7_witness :
    (NotificationScheduler.start stoppedState storeSched).is_running = true
  ∧ (NotificationScheduler.start stoppedState storeSched).jobs
      = ((((NotificationScheduler.getScheduledEvents storeSched).takeWhile
            (fun e => !(NotificationScheduler.registrationRaises e))).filter
          (fun e => (lookupData e.data "cron").isSome)).map
            (fun e => e.id)) :=
  C7_amended_theorem stoppedState storeSched rfl rfl (by decide)

/-- C8 counterexample: a scheduled event whose declared source is
`user_signup` — the classifier picks the signup handler (which yields two
drafts), but the job hard-codes `DailyStatEvent`, whose construction fails
for this event, so the job produces nothing; the job does not reconstruct
the handler via the classifier. -/
theorem C8_counterexample :
    NotificationScheduler.create_event_instance evSignupSched = none
  ∧ EventManager.create_event_source evSignupSched
      = Except.ok (Handler.signup 20 evSignupSched.data)
  ∧ (NotificationScheduler.process_scheduled_event tenv0 envOk
      storeSignupSched 20 1 2 0).notifications = []
  ∧ (Handler.create_notifications tenv0
      (Handler.signup 20 evSignupSched.data) 1 2 0).length = 2 := by
  exact ⟨rfl, rfl, rfl, rfl⟩

/-- C8 (amended): the job body reloads the event by id among scheduled
events (returning with the store untouched when it is gone), then
unconditionally attempts to construct a `DailyStatEvent` handler — not the
handler registered for the event's source; if that construction fails the
store is returned untouched, otherwise the handler's drafts are each sent
through the orchestrator. -/
theorem C8_amended_theorem (tenv : TemplateEnv) (cenv : ChannelEnv)
    (s : Store) (event_id id1 id2 : Nat) (now : Int) :
    (NotificationScheduler.getScheduledEventById s event_id = none →
      NotificationScheduler.process_scheduled_event tenv cenv s event_id
        id1 id2 now = s)
  ∧ (∀ e err, NotificationScheduler.getScheduledEventById s event_id = some e →
      DailyStatEvent.construct e = Except.error err →
      NotificationScheduler.process_scheduled_event tenv cenv s event_id
        id1 id2 now = s)
  ∧ (∀ e h, NotificationScheduler.getScheduledEventById s event_id = some e →
      DailyStatEvent.construct e = Except.ok h →
      NotificationScheduler.process_scheduled_event tenv cenv s event_id
        id1 id2 now
        = (h.create_notifications tenv id1 id2 now).foldl
            (fun acc n =>
              (NotificationService.send_notification cenv acc n now).2) s) := by
  refine ⟨?_, ?_, ?_⟩
  · intro hnone
    simp [NotificationScheduler.process_scheduled_event, hnone]
  · intro e err he hconstruct
    simp [NotificationScheduler.process_scheduled_event, he,
      NotificationScheduler.create_event_instance, hconstruct]
  · intro e h he hconstruct
    simp [NotificationScheduler.process_scheduled_event, he,
      NotificationScheduler.create_event_instance, hconstruct]

/-- C8 witness: a job whose event id is absent returns the store
untouched. -/
theorem C8_witness :
    NotificationScheduler.process_scheduled_event tenv0 envOk emptyStore
      99 1 2 0 = emptyStore :=
  (C8_amended_theorem tenv0 envOk emptyStore 99 1 2 0).1 rfl

end NotifSvc
